import Mathlib

/-!
Shallow embedding of the rumorshub/http server plugin (Go) in Lean 4,
together with proofs about the properties its specification states.

Conventions of the embedding:
* Go strings are modelled as Lean `String` / `List Char` (the inputs of
  interest are ASCII, where Go's byte indexing and Lean's character
  indexing agree).
* Go `int` / `int64` are modelled as `Int`, `uint64` as `Nat` with explicit
  two's-complement conversion where Go converts.
* Fallible Go functions return `Except String _` or `Option _`; a Go panic
  (nil dereference) is modelled as `Option.none` at the point it happens.
* External effects (sockets, the filesystem, the certmagic library) appear
  as explicit oracle inputs or as symbolic result values recording the
  call the code would make.
-/

namespace RumorsHub

/-! ## Go string helpers (strings.Split, net.SplitHostPort building blocks) -/

/-- Go `strings.Split(s, sep)` for a single-character separator,
on character lists.  The result is always non-empty. -/
def goSplitChar (c : Char) : List Char → List (List Char)
  | [] => [[]]
  | x :: xs =>
    if x = c then
      [] :: goSplitChar c xs
    else
      match goSplitChar c xs with
      | y :: ys => (x :: y) :: ys
      | [] => [[x]]

theorem goSplitChar_ne_nil (c : Char) (l : List Char) : goSplitChar c l ≠ [] := by
  induction l with
  | nil => simp [goSplitChar]
  | cons x xs ih =>
    simp only [goSplitChar]
    split
    · simp
    · cases h : goSplitChar c xs with
      | nil => simp
      | cons y ys => simp

/-- The first element of `strings.Split(s, c)`: the prefix of `s` before the
first occurrence of `c` (all of `s` when `c` does not occur). -/
theorem goSplitChar_head (c : Char) (l : List Char) :
    (goSplitChar c l).headD [] = l.takeWhile (fun x => !(x = c)) := by
  induction l with
  | nil => simp [goSplitChar]
  | cons x xs ih =>
    by_cases hx : x = c
    · simp [goSplitChar, hx, List.takeWhile]
    · cases h : goSplitChar c xs with
      | nil => exact absurd h (goSplitChar_ne_nil c xs)
      | cons y ys =>
        rw [h] at ih
        simp only [List.headD_cons] at ih
        simp [goSplitChar, hx, h, List.takeWhile, ih]

/-! ## TLSAddr (src middleware/Redirect and the https server share it) -/

/-- Embedding of `TLSAddr` / `tlsAddr` on character lists:

```go
func TLSAddr(host string, forcePort bool, sslPort int) string {
    // remove current forcePort first
    host = strings.Split(host, ":")[0]
    if forcePort || sslPort != 443 {
        host = fmt.Sprintf("%s:%v", host, sslPort)
    }
    return host
}
``` -/
def tlsAddrL (host : List Char) (forcePort : Bool) (sslPort : Int) : List Char :=
  if forcePort || sslPort ≠ 443 then
    (goSplitChar ':' host).headD [] ++ ':' :: (toString sslPort).data
  else
    (goSplitChar ':' host).headD []

/-- `TLSAddr` on Lean strings. -/
def TLSAddr (host : String) (forcePort : Bool) (sslPort : Int) : String :=
  String.mk (tlsAddrL host.data forcePort sslPort)

theorem takeWhile_neColon_of_all {l : List Char}
    (h : ∀ x ∈ l, x ≠ ':') :
    l.takeWhile (fun x => !(x = ':')) = l := by
  refine List.takeWhile_eq_self_iff.mpr ?_
  intro x hx
  simp [h x hx]

theorem all_neColon_takeWhile (l : List Char) :
    ∀ x ∈ l.takeWhile (fun x => !(x = ':')), x ≠ ':' := by
  intro x hx
  have := List.mem_takeWhile_imp hx
  simpa using this

theorem takeWhile_neColon_append (t rest : List Char)
    (ht : ∀ x ∈ t, x ≠ ':') :
    (t ++ ':' :: rest).takeWhile (fun x => !(x = ':')) = t := by
  induction t with
  | nil => simp [List.takeWhile]
  | cons a as ih =>
    have ha := ht a (by simp)
    have has : ∀ x ∈ as, x ≠ ':' := fun x hx => ht x (by simp [hx])
    simp [List.takeWhile, ha, ih has]

/-! ## Access-log middleware: severity of the emitted record -/

/-- slog levels used by the access logger. -/
inductive SlogLevel where
  | debug
  | info
  | warn
  | error
  deriving DecidableEq, Repr

/-- The structured record assembled by `lm.Log` after the inner handler
returns: the captured status code together with the record's level.

```go
switch {
case bw.code >= http.StatusBadRequest && bw.code < http.StatusInternalServerError:
    l.log.LogAttrs(..., slog.LevelWarn, "Incoming request", attributes...)
case bw.code >= http.StatusInternalServerError:
    l.log.LogAttrs(..., slog.LevelError, "Incoming request", attributes...)
default:
    l.log.LogAttrs(..., slog.LevelInfo, "Incoming request", attributes...)
}
```

`http.StatusBadRequest = 400`, `http.StatusInternalServerError = 500`.
A request whose handler never wrote a status leaves `bw.code` at its reset
value `0`. -/
def lmLogLevel (code : Int) : SlogLevel :=
  if 400 ≤ code ∧ code < 500 then .warn
  else if 500 ≤ code then .error
  else .info

/-- The full record emitted by `lm.Log` (level plus the attribute values
the Go code puts into `attributes`). -/
structure AccessLogRecord where
  level : SlogLevel
  msg : String
  status : Int
  method : String
  path : String
  ip : String
  userAgent : String
  requestID : String
  deriving DecidableEq, Repr

/-- `lm.Log`'s record assembly, given the captured response code and the
request data it reads. -/
def lmLogRecord (code : Int) (method path ip userAgent requestID : String) :
    AccessLogRecord :=
  { level := lmLogLevel code
    msg := "Incoming request"
    status := code
    method := method
    path := path
    ip := ip
    userAgent := userAgent
    requestID := requestID }

/-! ## AcmeConfig.InitDefaults -/

/-- Embedding of the `AcmeConfig` struct (servers/https). -/
structure AcmeConfig where
  cacheDir : String
  email : String
  challengeType : String
  altHTTPPort : Int
  altTLSALPNPort : Int
  useProductionEndpoint : Bool
  domains : List String
  deriving DecidableEq, Repr

/-- Embedding of `AcmeConfig.InitDefaults`:

```go
func (ac *AcmeConfig) InitDefaults() error {
    if ac.CacheDir == "" { ac.CacheDir = "cache_dir" }
    if ac.Email == "" { return errors.Str("email could not be empty") }
    if len(ac.Domains) == 0 { return errors.Str("should be at least 1 domain") }
    if ac.ChallengeType == "" {
        ac.ChallengeType = "http-01"
        if ac.AltHTTPPort == 0 { ac.AltHTTPPort = 80 }
    }
    return nil
}
```

The function is pure (no I/O): success returns the updated configuration. -/
def AcmeConfig.InitDefaults (ac : AcmeConfig) : Except String AcmeConfig :=
  let ac := if ac.cacheDir = "" then { ac with cacheDir := "cache_dir" } else ac
  if ac.email = "" then .error "email could not be empty"
  else if ac.domains.length = 0 then .error "should be at least 1 domain"
  else
    let ac :=
      if ac.challengeType = "" then
        let ac := { ac with challengeType := "http-01" }
        if ac.altHTTPPort = 0 then { ac with altHTTPPort := 80 } else ac
      else ac
    .ok ac

/-! ## ACME issuer construction (IssueCertificates) -/

/-- `certmagic.LetsEncryptProductionCA`. -/
def LetsEncryptProductionCA : String :=
  "https://acme-v02.api.letsencrypt.org/directory"

/-- `certmagic.LetsEncryptStagingCA`. -/
def LetsEncryptStagingCA : String :=
  "https://acme-staging-v02.api.letsencrypt.org/directory"

/-- The fields of the `certmagic.ACMEIssuer` that `IssueCertificates`
configures. -/
structure ACMEIssuer where
  ca : String
  testCA : String
  email : String
  agreed : Bool
  disableHTTPChallenge : Bool
  disableTLSALPNChallenge : Bool
  listenHost : String
  altHTTPPort : Int
  altTLSALPNPort : Int
  certObtainTimeoutSeconds : Int
  deriving DecidableEq, Repr

/-- The issuer `IssueCertificates` builds before obtaining certificates:

```go
myAcme := certmagic.NewACMEIssuer(cfg, certmagic.ACMEIssuer{
    CA:     certmagic.LetsEncryptProductionCA,
    TestCA: certmagic.LetsEncryptStagingCA,
    Email:  email,
    Agreed: true,
    DisableHTTPChallenge:    false,
    DisableTLSALPNChallenge: false,
    ListenHost:              "0.0.0.0",
    AltHTTPPort:             altHTTPPort,
    AltTLSALPNPort:          altTLSAlpnPort,
    CertObtainTimeout:       time.Second * 240,
    ...
})
if !useProduction { myAcme.CA = certmagic.LetsEncryptStagingCA }
switch challenge(challengeType) {
case HTTP01:    myAcme.DisableTLSALPNChallenge = true
case TLSAlpn01: myAcme.DisableHTTPChallenge = true
default:        myAcme.DisableTLSALPNChallenge = true
}
``` -/
def issueCertificatesIssuer (email challengeType : String) (useProduction : Bool)
    (altHTTPPort altTLSAlpnPort : Int) : ACMEIssuer :=
  let myAcme : ACMEIssuer :=
    { ca := LetsEncryptProductionCA
      testCA := LetsEncryptStagingCA
      email := email
      agreed := true
      disableHTTPChallenge := false
      disableTLSALPNChallenge := false
      listenHost := "0.0.0.0"
      altHTTPPort := altHTTPPort
      altTLSALPNPort := altTLSAlpnPort
      certObtainTimeoutSeconds := 240 }
  let myAcme :=
    if !useProduction then { myAcme with ca := LetsEncryptStagingCA } else myAcme
  if challengeType = "http-01" then
    { myAcme with disableTLSALPNChallenge := true }
  else if challengeType = "tlsalpn-01" then
    { myAcme with disableHTTPChallenge := true }
  else
    { myAcme with disableTLSALPNChallenge := true }

/-! ## initTLS: TLS policy (cipher suites, curves, minimum version) -/

/-- `crypto/tls` cipher-suite identifiers (numeric values from the Go
standard library). -/
def TLS_ECDHE_RSA_WITH_AES_128_GCM_SHA256 : Nat := 0xc02f

def TLS_ECDHE_RSA_WITH_AES_256_GCM_SHA384 : Nat := 0xc030

def TLS_ECDHE_ECDSA_WITH_AES_128_GCM_SHA256 : Nat := 0xc02b

def TLS_ECDHE_ECDSA_WITH_AES_256_GCM_SHA384 : Nat := 0xc02c

def TLS_ECDHE_RSA_WITH_CHACHA20_POLY1305 : Nat := 0xcca8

def TLS_ECDHE_ECDSA_WITH_CHACHA20_POLY1305 : Nat := 0xcca9

def TLS_AES_128_GCM_SHA256 : Nat := 0x1301

def TLS_AES_256_GCM_SHA384 : Nat := 0x1302

def TLS_CHACHA20_POLY1305_SHA256 : Nat := 0x1303

/-- `crypto/tls` version and curve identifiers. -/
def VersionTLS12 : Nat := 0x0303

def CurveX25519 : Nat := 29

def CurveP256 : Nat := 23

def CurveP384 : Nat := 24

def CurveP521 : Nat := 25

/-- The TLS-relevant fields of the `http.Server` built by `initTLS`. -/
structure TLSServerConfig where
  addr : String
  curvePreferences : List Nat
  cipherSuites : List Nat
  minVersion : Nat
  deriving DecidableEq, Repr

/-- Embedding of `initTLS` (servers/https).  The process-wide hardware
probe `hasGCMAsm` (computed in Go from `cpu.X86`/`cpu.ARM64`/`cpu.S390X`
capability flags) is passed in as an explicit input.

```go
if hasGCMAsm {
    topCipherSuites = []uint16{
        tls.TLS_ECDHE_RSA_WITH_AES_128_GCM_SHA256,
        tls.TLS_ECDHE_RSA_WITH_AES_256_GCM_SHA384,
        tls.TLS_ECDHE_ECDSA_WITH_AES_128_GCM_SHA256,
        tls.TLS_ECDHE_ECDSA_WITH_AES_256_GCM_SHA384,
        tls.TLS_ECDHE_RSA_WITH_CHACHA20_POLY1305,
        tls.TLS_ECDHE_ECDSA_WITH_CHACHA20_POLY1305,
    }
    defaultCipherSuitesTLS13 = []uint16{
        tls.TLS_AES_128_GCM_SHA256,
        tls.TLS_CHACHA20_POLY1305_SHA256,
        tls.TLS_AES_256_GCM_SHA384,
    }
} else {
    topCipherSuites = []uint16{
        tls.TLS_ECDHE_RSA_WITH_CHACHA20_POLY1305,
        tls.TLS_ECDHE_ECDSA_WITH_CHACHA20_POLY1305,
        tls.TLS_ECDHE_RSA_WITH_AES_128_GCM_SHA256,
        tls.TLS_ECDHE_RSA_WITH_AES_256_GCM_SHA384,
        tls.TLS_ECDHE_ECDSA_WITH_AES_128_GCM_SHA256,
        tls.TLS_ECDHE_ECDSA_WITH_AES_256_GCM_SHA384,
    }
    defaultCipherSuitesTLS13 = []uint16{
        tls.TLS_CHACHA20_POLY1305_SHA256,
        tls.TLS_AES_128_GCM_SHA256,
        tls.TLS_AES_256_GCM_SHA384,
    }
}
DefaultCipherSuites := make([]uint16, 0, 22)
DefaultCipherSuites = append(DefaultCipherSuites, topCipherSuites...)
DefaultCipherSuites = append(DefaultCipherSuites, defaultCipherSuitesTLS13...)
sslServer := &http.Server{
    Addr: tlsAddr(addr, true, port),
    ...
    TLSConfig: &tls.Config{
        CurvePreferences: []tls.CurveID{tls.X25519, tls.CurveP256, tls.CurveP384, tls.CurveP521},
        CipherSuites: DefaultCipherSuites,
        MinVersion:   tls.VersionTLS12,
    },
}
``` -/
def initTLS (hasGCMAsm : Bool) (addr : String) (port : Int) : TLSServerConfig :=
  let topCipherSuites : List Nat :=
    if hasGCMAsm then
      [TLS_ECDHE_RSA_WITH_AES_128_GCM_SHA256,
       TLS_ECDHE_RSA_WITH_AES_256_GCM_SHA384,
       TLS_ECDHE_ECDSA_WITH_AES_128_GCM_SHA256,
       TLS_ECDHE_ECDSA_WITH_AES_256_GCM_SHA384,
       TLS_ECDHE_RSA_WITH_CHACHA20_POLY1305,
       TLS_ECDHE_ECDSA_WITH_CHACHA20_POLY1305]
    else
      [TLS_ECDHE_RSA_WITH_CHACHA20_POLY1305,
       TLS_ECDHE_ECDSA_WITH_CHACHA20_POLY1305,
       TLS_ECDHE_RSA_WITH_AES_128_GCM_SHA256,
       TLS_ECDHE_RSA_WITH_AES_256_GCM_SHA384,
       TLS_ECDHE_ECDSA_WITH_AES_128_GCM_SHA256,
       TLS_ECDHE_ECDSA_WITH_AES_256_GCM_SHA384]
  let defaultCipherSuitesTLS13 : List Nat :=
    if hasGCMAsm then
      [TLS_AES_128_GCM_SHA256,
       TLS_CHACHA20_POLY1305_SHA256,
       TLS_AES_256_GCM_SHA384]
    else
      [TLS_CHACHA20_POLY1305_SHA256,
       TLS_AES_128_GCM_SHA256,
       TLS_AES_256_GCM_SHA384]
  { addr := TLSAddr addr true port
    curvePreferences := [CurveX25519, CurveP256, CurveP384, CurveP521]
    cipherSuites := topCipherSuites ++ defaultCipherSuitesTLS13
    minVersion := VersionTLS12 }

/-- The TLS 1.2 AES-GCM suites appearing in `initTLS`. -/
def aesGCM12Suites : List Nat :=
  [TLS_ECDHE_RSA_WITH_AES_128_GCM_SHA256,
   TLS_ECDHE_RSA_WITH_AES_256_GCM_SHA384,
   TLS_ECDHE_ECDSA_WITH_AES_128_GCM_SHA256,
   TLS_ECDHE_ECDSA_WITH_AES_256_GCM_SHA384]

/-- The TLS 1.2 ChaCha20-Poly1305 suites appearing in `initTLS`. -/
def chacha12Suites : List Nat :=
  [TLS_ECDHE_RSA_WITH_CHACHA20_POLY1305,
   TLS_ECDHE_ECDSA_WITH_CHACHA20_POLY1305]

/-- `a` occurs strictly before `b` in the list `l`. -/
def occursBefore (l : List Nat) (a b : Nat) : Prop :=
  a ∈ l ∧ b ∈ l ∧ l.indexOf a < l.indexOf b

instance (l : List Nat) (a b : Nat) : Decidable (occursBefore l a b) := by
  unfold occursBefore
  infer_instance

/-! ## Logging bridge: zap fields → slog attributes (toSlogFields) -/

/-- The `zapcore.FieldType` values handled by `toSlogFields`
(the enumerated cases of the switch, plus a representative of the
catch-all `default`). -/
inductive FieldType where
  | boolType
  | durationType
  | float64Type
  | float32Type
  | int64Type
  | int32Type
  | int16Type
  | int8Type
  | stringType
  | timeType
  | timeFullType
  | uint64Type
  | uint32Type
  | uint16Type
  | uint8Type
  | uintptrType
  | otherType
  deriving DecidableEq, Repr

/-- A value stored in a `zapcore.Field`'s `Interface interface{}` slot. -/
inductive ZapIface where
  | nil
  | location (name : String)
  | timeVal (unixNano : Int)
  | raw (tag : String)
  deriving DecidableEq, Repr

/-- Embedding of `zapcore.Field`: the slots `toSlogFields` reads. -/
structure Field where
  key : String
  type : FieldType
  integer : Int
  string : String
  interface : ZapIface
  deriving DecidableEq, Repr

/-- Embedding of `slog.Value` as the adapter constructs it.  `empty` is
the zero value of `var v slog.Value` (a `slog.Value` holding nothing). -/
inductive SlogValue where
  | empty
  | bool (b : Bool)
  | duration (nanos : Int)
  | float64frombits (bits : Nat)
  | int (i : Int)
  | str (s : String)
  | time (unixNano : Int) (loc : ZapIface)
  | timeFull (t : ZapIface)
  | uint (u : Nat)
  | any (x : ZapIface)
  deriving DecidableEq, Repr

/-- Embedding of `slog.Attr`. -/
structure Attr where
  key : String
  value : SlogValue
  deriving DecidableEq, Repr

/-- Go's `uint64(i)` for an `int64` value: two's-complement reinterpretation. -/
def uint64ofInt (i : Int) : Nat :=
  (i % (2 : Int) ^ 64).toNat

/-- The per-field translation inside `toSlogFields`.  **Go switch cases do
not fall through**: a case with an empty body leaves `v` at its zero
value, so the cases below whose Go bodies are empty produce `.empty`.

```go
var v slog.Value
switch f.Type {
case zapcore.BoolType:
    v = slog.BoolValue(f.Integer == 1)
case zapcore.DurationType:
    v = slog.DurationValue(time.Duration(f.Integer))
case zapcore.Float64Type:
case zapcore.Float32Type:
    v = slog.Float64Value(math.Float64frombits(uint64(f.Integer)))
case zapcore.Int64Type:
case zapcore.Int32Type:
case zapcore.Int16Type:
case zapcore.Int8Type:
    v = slog.Int64Value(f.Integer)
case zapcore.StringType:
    v = slog.StringValue(f.String)
case zapcore.TimeType:
    if f.Interface != nil {
        v = slog.TimeValue(time.Unix(0, f.Integer).In(f.Interface.(*time.Location)))
    } else {
        v = slog.TimeValue(time.Unix(0, f.Integer))
    }
case zapcore.TimeFullType:
    v = slog.TimeValue(f.Interface.(time.Time))
case zapcore.Uint64Type:
case zapcore.Uint32Type:
case zapcore.Uint16Type:
case zapcore.Uint8Type:
case zapcore.UintptrType:
    v = slog.Uint64Value(uint64(f.Integer))
default:
    v = slog.AnyValue(f.Interface)
}
``` -/
def toSlogValue (f : Field) : SlogValue :=
  match f.type with
  | .boolType => .bool (f.integer = 1)
  | .durationType => .duration f.integer
  | .float64Type => .empty
  | .float32Type => .float64frombits (uint64ofInt f.integer)
  | .int64Type => .empty
  | .int32Type => .empty
  | .int16Type => .empty
  | .int8Type => .int f.integer
  | .stringType => .str f.string
  | .timeType => .time f.integer f.interface
  | .timeFullType => .timeFull f.interface
  | .uint64Type => .empty
  | .uint32Type => .empty
  | .uint16Type => .empty
  | .uint8Type => .empty
  | .uintptrType => .uint (uint64ofInt f.integer)
  | .otherType => .any f.interface

/-- Embedding of `toSlogFields`: one attribute per field, carrying the
field's key and the translated value. -/
def toSlogFields (fields : List Field) : List Attr :=
  fields.map (fun f => { key := f.key, value := toSlogValue f })

/-! ## Middleware pipeline assembly (Plugin.Serve, Server.Start) -/

/-- The handler values the plugin builds: the externally supplied terminal
handler, wrapped by the middlewares the code applies.  Each constructor
records one wrapping step; `redirect` has no inner handler because
`middleware.Redirect(_ http.Handler, port int)` discards the handler it is
given (blank identifier). -/
inductive Handler where
  | terminal
  | h2c (inner : Handler)
  | maxRequestSize (limitBytes : Nat) (inner : Handler)
  | logMW (inner : Handler)
  | named (name : String) (inner : Handler)
  | redirect (port : Int)
  deriving DecidableEq, Repr

/-- `middleware.MaxRequestSize(next, maxReqSize)`: wraps `next` with the
body-ceiling reader. -/
def MaxRequestSize (next : Handler) (maxReqSize : Nat) : Handler :=
  .maxRequestSize maxReqSize next

/-- `middleware.NewLogMiddleware(next, log)`: wraps `next` with the access
logger. -/
def NewLogMiddleware (next : Handler) : Handler :=
  .logMW next

/-- `middleware.Redirect(next, port)`: the argument handler is discarded
(`_ http.Handler` in the Go signature); the result is the redirect
handler alone. -/
def Redirect (next : Handler) (port : Int) : Handler :=
  let _ := next
  .redirect port

/-- `MB uint64 = 1024 * 1024` (plugin.go). -/
def MB : Nat := 1024 * 1024

/-- The handler of the `http.Server` built by `NewHTTPServer`: the terminal
handler, wrapped in the cleartext HTTP/2 upgrade layer when
`cfg.HTTP2 != nil && cfg.HTTP2.H2C`. -/
def newHTTPServerHandler (handler : Handler) (h2cEnabled : Bool) : Handler :=
  if h2cEnabled then .h2c handler else handler

/-- `Plugin.applyBundledMiddleware` on one server's handler:

```go
serv.Handler = middleware.MaxRequestSize(serv.Handler, p.cfg.MaxRequestSize*MB)
serv.Handler = middleware.NewLogMiddleware(serv.Handler, p.log)
``` -/
def applyBundledMiddleware (maxRequestSize : Nat) (h : Handler) : Handler :=
  NewLogMiddleware (MaxRequestSize h (maxRequestSize * MB))

/-- The named-middleware application loop shared by both `Server.Start`
methods: for each name in `order`, wrap the current handler when the name
is registered, otherwise skip it (with a warning).  The registry is
modelled by the list of registered names. -/
def applyNamed (registry : List String) (order : List String) (h : Handler) : Handler :=
  order.foldl
    (fun acc name => if registry.contains name then .named name acc else acc) h

/-- The handler after `Server.Start` (plain HTTP server), before the
listener is created:

```go
for i := 0; i < len(order); i++ {
    if m, ok := mdwr[order[i]]; ok {
        s.http.Handler = m.Middleware(s.http.Handler)
    } else {
        s.log.Warn("requested middleware does not exist", ...)
    }
}
// apply redirect middleware first (if redirect specified)
if s.redirect {
    s.http.Handler = middleware.Redirect(s.http.Handler, s.redirectPort)
}
``` -/
def httpStartHandler (registry order : List String) (redirect : Bool)
    (redirectPort : Int) (h : Handler) : Handler :=
  let h := applyNamed registry order h
  if redirect then Redirect h redirectPort else h

/-- The handler after `Server.Start` (HTTPS server), before the listener is
created: the same loop, guarded by `len(mdwr) > 0`. -/
def httpsStartHandler (registry order : List String) (h : Handler) : Handler :=
  if registry.length > 0 then applyNamed registry order h else h

/-- The plain HTTP server's handler after `Plugin.Serve`
(`initServers`, then `applyBundledMiddleware`) and `Server.Start`. -/
def serveHTTPChain (registry order : List String) (maxRequestSize : Nat)
    (h2cEnabled redirect : Bool) (redirectPort : Int) : Handler :=
  httpStartHandler registry order redirect redirectPort
    (applyBundledMiddleware maxRequestSize (newHTTPServerHandler .terminal h2cEnabled))

/-- The HTTPS server's handler after `Plugin.Serve` and `Server.Start`
(the HTTPS server's handler starts as the terminal handler passed to
`initTLS`). -/
def serveHTTPSChain (registry order : List String) (maxRequestSize : Nat) : Handler :=
  httpsStartHandler registry order
    (applyBundledMiddleware maxRequestSize .terminal)

/-- One layer of the assembled chain, for stating order properties. -/
inductive Layer where
  | terminalL
  | h2cL
  | sizeLimiterL
  | accessLoggerL
  | namedL (name : String)
  | redirectL
  deriving DecidableEq, Repr

/-- The chain of an assembled handler, listed outermost first (the order
in which a request traverses the wrappers). -/
def chainOf : Handler → List Layer
  | .terminal => [.terminalL]
  | .h2c inner => .h2cL :: chainOf inner
  | .maxRequestSize _ inner => .sizeLimiterL :: chainOf inner
  | .logMW inner => .accessLoggerL :: chainOf inner
  | .named name inner => .namedL name :: chainOf inner
  | .redirect _ => [.redirectL]

/-! ## Redirect wrapper behaviour -/

/-- The request data `middleware.Redirect`'s closure reads. -/
structure RedirectRequest where
  host : String
  path : String
  rawQuery : String
  deriving DecidableEq, Repr

/-- The `url.URL` record the redirect wrapper builds (the fields it sets;
`url.URL.String` of the standard library serialises it into the
`Location` header via `http.Redirect`). -/
structure URL where
  scheme : String
  host : String
  path : String
  rawQuery : String
  deriving DecidableEq, Repr

/-- The response the redirect wrapper produces for a request:

```go
w.Header().Add("Strict-Transport-Security", "max-age=31536000; includeSubDomains; preload")
target := &url.URL{
    Scheme:   scheme,            // const scheme = "https"
    Host:     TLSAddr(r.Host, false, port),
    Path:     r.URL.Path,
    RawQuery: r.URL.RawQuery,
}
http.Redirect(w, r, target.String(), http.StatusPermanentRedirect)
```

`http.StatusPermanentRedirect = 308`. -/
structure RedirectResponse where
  status : Int
  headers : List (String × String)
  target : URL
  deriving DecidableEq, Repr

/-- The redirect wrapper's behaviour on one request. -/
def redirectHandle (port : Int) (r : RedirectRequest) : RedirectResponse :=
  { status := 308
    headers :=
      [("Strict-Transport-Security", "max-age=31536000; includeSubDomains; preload")]
    target :=
      { scheme := "https"
        host := TLSAddr r.host false port
        path := r.path
        rawQuery := r.rawQuery } }

/-! ## Listener factory (servers/listener)

`CreateListener` splits the DSN on `"://"`, dispatches on the transport,
and for TCP picks the IP family from the host part via `net.SplitHostPort`
and `net.ParseIP`.  The Go standard-library helpers it consumes
(`strings.Split`, `net.SplitHostPort`, `net.ParseIP` — which since Go 1.18
delegates to `netip.ParseAddr` — and `net.IP.To4`) are embedded below from
their Go sources. -/

def IPV4 : String := "tcp4"

def IPV6 : String := "tcp6"

/-- First index of a character in a list (`bytealg.IndexByteString`). -/
def firstIdxOf (c : Char) (l : List Char) : Option Nat :=
  l.findIdx? (fun x => x = c)

/-- Last index of a character in a list (`last(s, b)` in Go's net package). -/
def lastIdxOf (c : Char) (l : List Char) : Option Nat :=
  match firstIdxOf c l.reverse with
  | none => none
  | some j => some (l.length - 1 - j)

/-- Split `s` at the first occurrence of `sep`, returning the part before
the separator and the part after it. -/
def splitAtFirst (sep : List Char) : List Char → Option (List Char × List Char)
  | [] => none
  | x :: xs =>
    if sep.isPrefixOf (x :: xs) then some ([], (x :: xs).drop sep.length)
    else
      match splitAtFirst sep xs with
      | some (b, a) => some (x :: b, a)
      | none => none

/-- Fuelled worker for `goSplitSep`; the fuel is always sufficient because
each split consumes at least one character. -/
def goSplitSepFuel (sep : List Char) : Nat → List Char → List (List Char)
  | 0, s => [s]
  | fuel + 1, s =>
    match splitAtFirst sep s with
    | none => [s]
    | some (b, a) => b :: goSplitSepFuel sep fuel a

/-- Go `strings.Split(s, sep)` for a non-empty multi-character separator
(used with `sep = "://"`). -/
def goSplitSep (sep s : List Char) : List (List Char) :=
  goSplitSepFuel sep (s.length + 1) s

/-- Embedding of `net.SplitHostPort`.  The distinct error messages of the
Go function are collapsed to `none`; `some (host, port)` is the success
case.

```go
i := last(hostPort, ':')
if i < 0 { return addrErr(hostPort, missingPort) }
if hostPort[0] == '[' {
    end := bytealg.IndexByteString(hostPort, ']')
    if end < 0 { return addrErr(hostPort, "missing ']' in address") }
    switch end + 1 {
    case len(hostPort): return addrErr(hostPort, missingPort)
    case i: // expected
    default:
        if hostPort[end+1] == ':' { return addrErr(hostPort, tooManyColons) }
        return addrErr(hostPort, missingPort)
    }
    host = hostPort[1:end]
    j, k = 1, end+1
} else {
    host = hostPort[:i]
    if bytealg.IndexByteString(host, ':') >= 0 { return addrErr(hostPort, tooManyColons) }
}
if bytealg.IndexByteString(hostPort[j:], '[') >= 0 { return addrErr(hostPort, "unexpected '[' in address") }
if bytealg.IndexByteString(hostPort[k:], ']') >= 0 { return addrErr(hostPort, "unexpected ']' in address") }
port = hostPort[i+1:]
``` -/
def splitHostPort (hp : List Char) : Option (List Char × List Char) :=
  match lastIdxOf ':' hp with
  | none => none
  | some i =>
    if hp.headD ' ' = '[' then
      match firstIdxOf ']' hp with
      | none => none
      | some e =>
        if e + 1 = hp.length then none
        else if e + 1 = i then
          let host := (hp.take e).drop 1
          if (firstIdxOf '[' (hp.drop 1)).isSome then none
          else if (firstIdxOf ']' (hp.drop (e + 1))).isSome then none
          else some (host, hp.drop (i + 1))
        else none
    else
      let host := hp.take i
      if (firstIdxOf ':' host).isSome then none
      else if (firstIdxOf '[' hp).isSome then none
      else if (firstIdxOf ']' hp).isSome then none
      else some (host, hp.drop (i + 1))

/-- Embedding of `netip` `parseIPv4Fields`: parses a dotted-quad octet
sequence, producing the four field bytes.  State: remaining characters,
current digit count, current octet value, number of completed fields, and
the completed fields (reversed). -/
def parseIPv4Loop : List Char → Nat → Nat → Nat → List Nat → Option (List Nat)
  | [], _, val, pos, acc =>
    if pos < 3 then none
    else some (acc.reverse ++ [val])
  | ch :: rest, digLen, val, pos, acc =>
    if '0' ≤ ch ∧ ch ≤ '9' then
      if digLen = 1 ∧ val = 0 then none
      else
        let val := val * 10 + (ch.toNat - '0'.toNat)
        if 256 ≤ val then none
        else parseIPv4Loop rest (digLen + 1) val pos acc
    else if ch = '.' then
      if digLen = 0 ∨ rest = [] then none
      else if pos = 3 then none
      else parseIPv4Loop rest 0 0 (pos + 1) (val :: acc)
    else none

/-- `netip.parseIPv4` on the four field bytes. -/
def parseIPv4Go (s : List Char) : Option (List Nat) :=
  parseIPv4Loop s 0 0 0 []

/-- Scan one hexadecimal group of an IPv6 address: returns the accumulated
value, the number of digits consumed, and the rest of the input; `none`
when a group reaches `2^16` (Go: "IPv6 field has value >=2^16"). -/
def hexChunk : List Char → Nat → Nat → Option (Nat × Nat × List Char)
  | [], acc, off => some (acc, off, [])
  | c :: rest, acc, off =>
    if '0' ≤ c ∧ c ≤ '9' then
      let acc := acc * 16 + (c.toNat - '0'.toNat)
      if 65535 < acc then none else hexChunk rest acc (off + 1)
    else if 'a' ≤ c ∧ c ≤ 'f' then
      let acc := acc * 16 + (c.toNat - 'a'.toNat + 10)
      if 65535 < acc then none else hexChunk rest acc (off + 1)
    else if 'A' ≤ c ∧ c ≤ 'F' then
      let acc := acc * 16 + (c.toNat - 'A'.toNat + 10)
      if 65535 < acc then none else hexChunk rest acc (off + 1)
    else some (acc, off, c :: rest)

/-- Write the bytes `bs` into `ip` starting at index `i`. -/
def setBytes (ip : List Nat) (i : Nat) : List Nat → List Nat
  | [] => ip
  | b :: bs => setBytes (ip.set i b) (i + 1) bs

/-- The main loop of `netip.parseIPv6` (`for i < 16 { ... }`), returning
the remaining input, the number of bytes filled, the byte array, and the
ellipsis position on normal exit; `none` on any parse error.  The fuel is
always sufficient because every continuing iteration consumes at least two
characters. -/
def parseIPv6Loop :
    Nat → List Char → Nat → List Nat → Option Nat →
      Option (List Char × Nat × List Nat × Option Nat)
  | 0, _, _, _, _ => none
  | fuel + 1, s, i, ip, ellipsis =>
    if i < 16 then
      match hexChunk s 0 0 with
      | none => none
      | some (acc, off, rest) =>
        if off = 0 then none
        else if rest.headD ' ' = '.' then
          if ellipsis = none ∧ i ≠ 12 then none
          else if 16 < i + 4 then none
          else
            match parseIPv4Go s with
            | none => none
            | some fields => some ([], i + 4, setBytes ip i fields, ellipsis)
        else
          let ip := (ip.set i (acc / 256)).set (i + 1) (acc % 256)
          let i := i + 2
          let s := rest
          if s = [] then some (s, i, ip, ellipsis)
          else if s.headD ' ' ≠ ':' then none
          else if s.length = 1 then none
          else
            let s := s.drop 1
            if s.headD ' ' = ':' then
              if ellipsis.isSome then none
              else
                let s := s.drop 1
                if s = [] then some (s, i, ip, some i)
                else parseIPv6Loop fuel s i ip (some i)
            else parseIPv6Loop fuel s i ip ellipsis
    else some (s, i, ip, ellipsis)

/-- Ellipsis expansion at the end of `parseIPv6`: bytes `[e, i)` move to
`[e+n, i+n)` and `[e, e+n)` become zero, `n = 16 - i`. -/
def expandEllipsis (ip : List Nat) (i e : Nat) : List Nat :=
  ip.take e ++ List.replicate (16 - i) 0 ++ ((ip.take i).drop e)

/-- Embedding of `netip.parseIPv6`: returns the 16 address bytes and the
zone suffix. -/
def parseIPv6Go (input : List Char) : Option (List Nat × List Char) :=
  let zoneSplit : Option (List Char × List Char) :=
    match firstIdxOf '%' input with
    | none => some (input, [])
    | some idx =>
      let zone := input.drop (idx + 1)
      if zone = [] then none else some (input.take idx, zone)
  match zoneSplit with
  | none => none
  | some (s, zone) =>
    match s with
    | ':' :: ':' :: rest =>
      if rest = [] then some (List.replicate 16 0, zone)
      else
        match parseIPv6Loop (rest.length + 2) rest 0 (List.replicate 16 0) (some 0) with
        | none => none
        | some (s', i, ip, ellipsis) =>
          if s' ≠ [] then none
          else if i < 16 then
            match ellipsis with
            | none => none
            | some e => some (expandEllipsis ip i e, zone)
          else if ellipsis.isSome then none
          else some (ip, zone)
    | _ =>
      match parseIPv6Loop (s.length + 2) s 0 (List.replicate 16 0) none with
      | none => none
      | some (s', i, ip, ellipsis) =>
        if s' ≠ [] then none
        else if i < 16 then
          match ellipsis with
          | none => none
          | some e => some (expandEllipsis ip i e, zone)
        else if ellipsis.isSome then none
        else some (ip, zone)

/-- The 16-byte form of a parsed IPv4 address
(`netip.Addr.As16`: the IPv4-mapped IPv6 prefix `::ffff:` plus the four
octets). -/
def v4As16 (fields : List Nat) : List Nat :=
  [0, 0, 0, 0, 0, 0, 0, 0, 0, 0, 0xff, 0xff] ++ fields

/-- Embedding of `netip.ParseAddr`: dispatch on the first `'.'`, `':'` or
`'%'` in the string. -/
def parseAddrGo (s : List Char) : Option (List Nat × List Char) :=
  match s.find? (fun c => c = '.' ∨ c = ':' ∨ c = '%') with
  | some c =>
    if c = '.' then
      match parseIPv4Go s with
      | none => none
      | some fields => some (v4As16 fields, [])
    else if c = ':' then parseIPv6Go s
    else none
  | none => none

/-- Embedding of `net.ParseIP`: the empty list models the `nil` `net.IP`
returned on failure (or when the parsed address carries a zone). -/
def ParseIP (s : List Char) : List Nat :=
  match parseAddrGo s with
  | some (bytes, zone) => if zone ≠ [] then [] else bytes
  | none => []

/-- Embedding of `net.IP.To4` (`nil` modelled as `[]`):

```go
func (ip IP) To4() IP {
    if len(ip) == 4 { return ip }
    if len(ip) == 16 && isZeros(ip[0:10]) && ip[10] == 0xff && ip[11] == 0xff {
        return ip[12:16]
    }
    return nil
}
``` -/
def To4 (ip : List Nat) : List Nat :=
  if ip.length = 4 then ip
  else if ip.length = 16 ∧ (ip.take 10).all (fun b => b = 0) ∧
      ip.getD 10 0 = 0xff ∧ ip.getD 11 0 = 0xff then
    ip.drop 12
  else []

/-- Embedding of `netw` (servers/listener):

```go
func netw(addr net.IP) string {
    if addr.To4() == nil { return IPV6 }
    return IPV4
}
``` -/
def netw (addr : List Nat) : String :=
  if To4 addr = [] then IPV6 else IPV4

/-- The tcplisten call `createTCPListener` issues on success. -/
structure TCPListenCall where
  network : String
  addr : String
  deriving DecidableEq, Repr

/-- Embedding of `createTCPListener`:

```go
host, _, err := net.SplitHostPort(addr)
if err != nil { return nil, err }
if host == "" { return cfg.NewListener(IPV4, addr) }
return cfg.NewListener(netw(net.ParseIP(host)), addr)
``` -/
def createTCPListener (addr : String) : Except String TCPListenCall :=
  match splitHostPort addr.data with
  | none => .error "split host port failed"
  | some (host, _) =>
    if host = [] then .ok ⟨IPV4, addr⟩
    else .ok ⟨netw (ParseIP host), addr⟩

/-- The outcome of one `os.Stat` call, as `fileExists` distinguishes it. -/
inductive StatResult where
  | statOk (isDir : Bool)
  | errNotExist
  | errOther
  deriving DecidableEq, Repr

/-- Embedding of `fileExists`.  When `os.Stat` fails with an error that is
not non-existence, `info` is a nil interface and `info.IsDir()` is a
nil-pointer dereference: the Go code panics, modelled as `none`.

```go
func fileExists(filename string) bool {
    info, err := os.Stat(filename)
    if os.IsNotExist(err) { return false }
    return !info.IsDir()
}
``` -/
def fileExists (stat : StatResult) : Option Bool :=
  match stat with
  | .errNotExist => some false
  | .statOk isDir => some (!isDir)
  | .errOther => none

/-- The filesystem effects `CreateListener`'s unix branch performs. -/
structure FSOracle where
  stat : String → StatResult
  unlinkErr : String → Option String

/-- The observable result of `CreateListener`: the listen call it issues,
or the error it returns.  The surrounding `Option` models termination
versus panic: `none` means the Go code panics. -/
inductive ListenOutcome where
  | unixListen (network path : String)
  | tcpListen (network addr : String)
  | err (msg : String)
  deriving DecidableEq, Repr

/-- Embedding of `CreateListener`:

```go
dsn := strings.Split(address, "://")
switch len(dsn) {
case 1:
    return createTCPListener(dsn[0])
case 2:
    switch dsn[0] {
    case "unix":
        if fileExists(dsn[1]) {
            err := syscall.Unlink(dsn[1])
            if err != nil { return nil, fmt.Errorf("error during the unlink syscall: error %w", err) }
        }
        return net.Listen(dsn[0], dsn[1])
    case "tcp":
        return createTCPListener(dsn[1])
    default:
        return nil, fmt.Errorf("invalid Protocol ([tcp://]:6001, unix://file.sock), address: %s", address)
    }
default:
    return nil, fmt.Errorf("wrong number of parsed protocol parts, address: %s", address)
}
``` -/
def CreateListener (address : String) (fs : FSOracle) : Option ListenOutcome :=
  let dsn := goSplitSep "://".data address.data
  match dsn with
  | [s0] =>
    some
      (match createTCPListener (String.mk s0) with
       | .ok call => .tcpListen call.network call.addr
       | .error e => .err e)
  | [proto, target] =>
    if proto = "unix".data then
      match fileExists (fs.stat (String.mk target)) with
      | none => none
      | some true =>
        match fs.unlinkErr (String.mk target) with
        | some e => some (.err ("error during the unlink syscall: error " ++ e))
        | none => some (.unixListen "unix" (String.mk target))
      | some false => some (.unixListen "unix" (String.mk target))
    else if proto = "tcp".data then
      some
        (match createTCPListener (String.mk target) with
         | .ok call => .tcpListen call.network call.addr
         | .error e => .err e)
    else
      some (.err ("invalid Protocol ([tcp://]:6001, unix://file.sock), address: " ++ address))
  | _ => some (.err ("wrong number of parsed protocol parts, address: " ++ address))

/-! ## Helper lemmas -/

theorem tlsAddrL_idem (l : List Char) (f : Bool) (p : Int) :
    tlsAddrL (tlsAddrL l f p) f p = tlsAddrL l f p := by
  have htcolon : ∀ x ∈ (goSplitChar ':' l).headD [], x ≠ ':' := by
    rw [goSplitChar_head]; exact all_neColon_takeWhile l
  unfold tlsAddrL
  by_cases hC : (f || decide (p ≠ 443)) = true
  · simp only [if_pos hC]
    rw [goSplitChar_head, takeWhile_neColon_append _ _ htcolon]
  · simp only [if_neg hC]
    rw [goSplitChar_head, takeWhile_neColon_of_all htcolon]

theorem chainOf_applyNamed (registry order : List String) (h : Handler) :
    chainOf (applyNamed registry order h) =
      ((order.filter (fun n => registry.contains n)).reverse.map Layer.namedL)
        ++ chainOf h := by
  induction order generalizing h with
  | nil => simp [applyNamed]
  | cons n ns ih =>
    have hstep : applyNamed registry (n :: ns) h =
        applyNamed registry ns
          (if registry.contains n = true then .named n h else h) := rfl
    by_cases hn : registry.contains n = true
    · rw [hstep, if_pos hn, ih]
      rw [show (n :: ns).filter (fun n => registry.contains n) =
            n :: ns.filter (fun n => registry.contains n) by
          simp only [List.filter_cons, hn, if_pos]]
      simp [chainOf]
    · rw [hstep, if_neg hn, ih]
      rw [show (n :: ns).filter (fun n => registry.contains n) =
            ns.filter (fun n => registry.contains n) by
          simp only [List.filter_cons, hn, if_neg, Bool.false_eq_true, if_false]]

theorem applyNamed_nil_registry (order : List String) (h : Handler) :
    applyNamed [] order h = h := by
  induction order generalizing h with
  | nil => rfl
  | cons n ns ih =>
    have hstep : applyNamed [] (n :: ns) h =
        applyNamed [] ns
          (if ([] : List String).contains n = true then .named n h else h) := rfl
    rw [hstep, if_neg (by simp)]
    exact ih h

theorem chainOf_httpsStart (registry order : List String) (h : Handler) :
    chainOf (httpsStartHandler registry order h) =
      ((order.filter (fun n => registry.contains n)).reverse.map Layer.namedL)
        ++ chainOf h := by
  unfold httpsStartHandler
  by_cases hreg : registry.length > 0
  · simp only [hreg, if_true]
    exact chainOf_applyNamed registry order h
  · have hnil : registry = [] := by
      cases registry with
      | nil => rfl
      | cons a as => simp at hreg
    subst hnil
    simp [List.filter]

/-! ## Claim theorems -/

/-- **C9.** The address-port rewrite is idempotent: for every host string,
force flag, and port, `TLSAddr(TLSAddr(h, f, p), f, p) = TLSAddr(h, f, p)`. -/
theorem tlsAddr_idempotent (h : String) (f : Bool) (p : Int) :
    TLSAddr (TLSAddr h f p) f p = TLSAddr h f p := by
  unfold TLSAddr
  exact congrArg String.mk (tlsAddrL_idem h.data f p)

/-- **C7 counterexample.** The claim says status codes of 600 and above log
at info; the access logger's record for status 600 is at error level, not
info. -/
theorem lmLog_600_counterexample :
    (lmLogRecord 600 "GET" "/" "192.0.2.1" "curl" "id-1").level = SlogLevel.error ∧
    SlogLevel.error ≠ SlogLevel.info := by
  constructor
  · rfl
  · decide

/-- **C7 (amended).** The record's severity is warning exactly for captured
status codes in `[400,500)`, error exactly for codes `≥ 500` (with no upper
bound, so codes of 600 and above also log at error), and info exactly for
codes below 400 (including requests where no status was written, captured
as 0). -/
theorem lmLog_severity_levels (code : Int)
    (method path ip userAgent requestID : String) :
    ((lmLogRecord code method path ip userAgent requestID).level = .warn ↔
        400 ≤ code ∧ code < 500) ∧
    ((lmLogRecord code method path ip userAgent requestID).level = .error ↔
        500 ≤ code) ∧
    ((lmLogRecord code method path ip userAgent requestID).level = .info ↔
        code < 400) ∧
    (lmLogRecord code method path ip userAgent requestID).status = code := by
  refine ⟨?_, ?_, ?_, rfl⟩ <;>
    · show lmLogLevel code = _ ↔ _
      unfold lmLogLevel
      split_ifs with h1 h2 <;> simp <;> omega

/-- **C6.** `AcmeConfig.InitDefaults` (a pure function: it performs no
network activity) fails exactly when the email is empty or the domain list
is empty; on success it defaults the cache dir to `"cache_dir"` when
unset, the challenge type to `"http-01"` when unset, and the alternate
HTTP port to 80 exactly when the challenge type was defaulted and the port
was unset, leaving every other field unchanged. -/
theorem acmeConfig_initDefaults_spec (ac : AcmeConfig) :
    ((∃ e, AcmeConfig.InitDefaults ac = .error e) ↔
        ac.email = "" ∨ ac.domains = []) ∧
    ∀ ac', AcmeConfig.InitDefaults ac = .ok ac' →
      ac'.cacheDir = (if ac.cacheDir = "" then "cache_dir" else ac.cacheDir) ∧
      ac'.email = ac.email ∧
      ac'.challengeType =
        (if ac.challengeType = "" then "http-01" else ac.challengeType) ∧
      ac'.altHTTPPort =
        (if ac.challengeType = "" ∧ ac.altHTTPPort = 0 then 80
         else ac.altHTTPPort) ∧
      ac'.altTLSALPNPort = ac.altTLSALPNPort ∧
      ac'.useProductionEndpoint = ac.useProductionEndpoint ∧
      ac'.domains = ac.domains := by
  unfold AcmeConfig.InitDefaults
  by_cases hcd : ac.cacheDir = "" <;>
    by_cases hem : ac.email = "" <;>
      by_cases hdom : ac.domains = [] <;>
        by_cases hct : ac.challengeType = "" <;>
          by_cases hport : ac.altHTTPPort = 0 <;>
            simp_all [List.length_eq_zero]

/-- **C6 witness.** The spec theorem instantiated at a concrete
configuration: empty cache dir, challenge type and port, valid email and a
one-domain list. -/
theorem acmeConfig_initDefaults_spec_witness :
    (⟨"cache_dir", "admin@example.com", "http-01", 80, 0, false,
        ["example.com"]⟩ : AcmeConfig).cacheDir =
      (if (⟨"", "admin@example.com", "", 0, 0, false,
          ["example.com"]⟩ : AcmeConfig).cacheDir = "" then "cache_dir"
       else (⟨"", "admin@example.com", "", 0, 0, false,
          ["example.com"]⟩ : AcmeConfig).cacheDir) ∧
    (⟨"cache_dir", "admin@example.com", "http-01", 80, 0, false,
        ["example.com"]⟩ : AcmeConfig).altHTTPPort =
      (if (⟨"", "admin@example.com", "", 0, 0, false,
          ["example.com"]⟩ : AcmeConfig).challengeType = "" ∧
          (⟨"", "admin@example.com", "", 0, 0, false,
            ["example.com"]⟩ : AcmeConfig).altHTTPPort = 0 then 80
       else (⟨"", "admin@example.com", "", 0, 0, false,
          ["example.com"]⟩ : AcmeConfig).altHTTPPort) := by
  have h :=
    (acmeConfig_initDefaults_spec
        ⟨"", "admin@example.com", "", 0, 0, false, ["example.com"]⟩).2
      ⟨"cache_dir", "admin@example.com", "http-01", 80, 0, false,
        ["example.com"]⟩ (by rfl)
  exact ⟨h.1, h.2.2.2.1⟩

/-- **C5.** The issuer built by `IssueCertificates` has the production CA
endpoint exactly when the production flag is set (staging not requested);
otherwise its CA endpoint is the staging endpoint. -/
theorem issueCertificates_ca_endpoint (email challengeType : String)
    (useProduction : Bool) (altHTTPPort altTLSAlpnPort : Int) :
    ((issueCertificatesIssuer email challengeType useProduction altHTTPPort
          altTLSAlpnPort).ca = LetsEncryptProductionCA ↔
        useProduction = true) ∧
    ((issueCertificatesIssuer email challengeType useProduction altHTTPPort
          altTLSAlpnPort).ca = LetsEncryptStagingCA ↔
        useProduction = false) := by
  have hne : LetsEncryptProductionCA ≠ LetsEncryptStagingCA := by decide
  have hne2 : LetsEncryptStagingCA ≠ LetsEncryptProductionCA := hne.symm
  cases useProduction <;>
    by_cases h1 : challengeType = "http-01" <;>
      by_cases h2 : challengeType = "tlsalpn-01" <;>
        simp_all [issueCertificatesIssuer]

/-- **C8.** The TLS configuration built by `initTLS`: with a positive
AES-GCM hardware probe every AES-GCM TLS 1.2 suite precedes every
ChaCha20-Poly1305 suite and the TLS 1.3 tail is (AES-128-GCM,
ChaCha20-Poly1305, AES-256-GCM); with a negative probe the ChaCha20
suites precede the AES-GCM ones and the TLS 1.3 tail is
(ChaCha20-Poly1305, AES-128-GCM, AES-256-GCM); in both cases the curve
preference order is X25519, P-256, P-384, P-521 and the minimum version
is TLS 1.2. -/
theorem initTLS_cipher_policy (addr : String) (port : Int) :
    (∀ a ∈ aesGCM12Suites, ∀ b ∈ chacha12Suites,
        occursBefore (initTLS true addr port).cipherSuites a b) ∧
    (initTLS true addr port).cipherSuites.drop 6 =
      [TLS_AES_128_GCM_SHA256, TLS_CHACHA20_POLY1305_SHA256,
        TLS_AES_256_GCM_SHA384] ∧
    (∀ b ∈ chacha12Suites, ∀ a ∈ aesGCM12Suites,
        occursBefore (initTLS false addr port).cipherSuites b a) ∧
    (initTLS false addr port).cipherSuites.drop 6 =
      [TLS_CHACHA20_POLY1305_SHA256, TLS_AES_128_GCM_SHA256,
        TLS_AES_256_GCM_SHA384] ∧
    (∀ g : Bool,
        (initTLS g addr port).curvePreferences =
          [CurveX25519, CurveP256, CurveP384, CurveP521] ∧
        (initTLS g addr port).minVersion = VersionTLS12) := by
  refine ⟨?_, rfl, ?_, rfl, ?_⟩
  · show ∀ a ∈ aesGCM12Suites, ∀ b ∈ chacha12Suites,
      occursBefore
        [TLS_ECDHE_RSA_WITH_AES_128_GCM_SHA256,
         TLS_ECDHE_RSA_WITH_AES_256_GCM_SHA384,
         TLS_ECDHE_ECDSA_WITH_AES_128_GCM_SHA256,
         TLS_ECDHE_ECDSA_WITH_AES_256_GCM_SHA384,
         TLS_ECDHE_RSA_WITH_CHACHA20_POLY1305,
         TLS_ECDHE_ECDSA_WITH_CHACHA20_POLY1305,
         TLS_AES_128_GCM_SHA256,
         TLS_CHACHA20_POLY1305_SHA256,
         TLS_AES_256_GCM_SHA384] a b
    decide
  · show ∀ b ∈ chacha12Suites, ∀ a ∈ aesGCM12Suites,
      occursBefore
        [TLS_ECDHE_RSA_WITH_CHACHA20_POLY1305,
         TLS_ECDHE_ECDSA_WITH_CHACHA20_POLY1305,
         TLS_ECDHE_RSA_WITH_AES_128_GCM_SHA256,
         TLS_ECDHE_RSA_WITH_AES_256_GCM_SHA384,
         TLS_ECDHE_ECDSA_WITH_AES_128_GCM_SHA256,
         TLS_ECDHE_ECDSA_WITH_AES_256_GCM_SHA384,
         TLS_CHACHA20_POLY1305_SHA256,
         TLS_AES_128_GCM_SHA256,
         TLS_AES_256_GCM_SHA384] b a
    decide
  · intro g
    cases g <;> exact ⟨rfl, rfl⟩

/-- **C8 witness.** The precedence clause instantiated: with a positive
probe, the AES-128-GCM (RSA) suite precedes the ChaCha20-Poly1305 (RSA)
suite in the configured cipher list. -/
theorem initTLS_cipher_policy_witness :
    occursBefore (initTLS true "127.0.0.1:8080" 443).cipherSuites
      TLS_ECDHE_RSA_WITH_AES_128_GCM_SHA256
      TLS_ECDHE_RSA_WITH_CHACHA20_POLY1305 :=
  (initTLS_cipher_policy "127.0.0.1:8080" 443).1
    TLS_ECDHE_RSA_WITH_AES_128_GCM_SHA256 (by decide)
    TLS_ECDHE_RSA_WITH_CHACHA20_POLY1305 (by decide)

/-- **C4 (code bug).** Contrary to the claim that no enumerated field type
maps to an empty value, the adapter translates `Float64Type`, `Int64Type`
and `Uint64Type` fields (and likewise `Int32/Int16` and `Uint32/16/8`)
into attributes whose value is the zero `slog.Value`: the Go `switch`
cases for these types have empty bodies and Go cases do not fall through.
The integer slot `4614256656552045848` is `math.Float64bits(3.141592653589793)`. -/
theorem toSlogFields_empty_value_bug :
    toSlogFields
        [⟨"pi", .float64Type, 4614256656552045848, "", .nil⟩,
         ⟨"n", .int64Type, 42, "", .nil⟩,
         ⟨"u", .uint64Type, 7, "", .nil⟩] =
      [⟨"pi", .empty⟩, ⟨"n", .empty⟩, ⟨"u", .empty⟩] ∧
    (∀ f : Field,
        f.type = .float64Type ∨ f.type = .int64Type ∨ f.type = .int32Type ∨
        f.type = .int16Type ∨ f.type = .uint64Type ∨ f.type = .uint32Type ∨
        f.type = .uint16Type ∨ f.type = .uint8Type →
          toSlogValue f = .empty) := by
  constructor
  · rfl
  · intro f hf
    unfold toSlogValue
    rcases hf with h | h | h | h | h | h | h | h <;> rw [h]

/-- **C4 witness.** The second part of the bug theorem instantiated at a
concrete `Float64Type` field. -/
theorem toSlogFields_empty_value_bug_witness :
    toSlogValue ⟨"pi", .float64Type, 4614256656552045848, "", .nil⟩ =
      SlogValue.empty :=
  toSlogFields_empty_value_bug.2
    ⟨"pi", .float64Type, 4614256656552045848, "", .nil⟩ (Or.inl rfl)

/-- **C1 counterexample.** With two registered middlewares named
`"a", "b"` requested in that order on the plain HTTP server (no h2c, no
redirect), the assembled chain outer-to-inner is named "b", named "a",
access logger, size limiter, terminal — not the claimed size limiter,
access logger, named "a", named "b", terminal. -/
theorem serve_chain_claimed_order_counterexample :
    chainOf (serveHTTPChain ["a", "b"] ["a", "b"] 100 false false 0) =
      [.namedL "b", .namedL "a", .accessLoggerL, .sizeLimiterL, .terminalL] ∧
    ([.namedL "b", .namedL "a", .accessLoggerL, .sizeLimiterL,
        .terminalL] : List Layer) ≠
      [.sizeLimiterL, .accessLoggerL, .namedL "a", .namedL "b",
        .terminalL] := by
  constructor
  · rfl
  · decide

/-- **C1 (amended).** For both servers, after `Serve` applies the bundled
middlewares and `Start` applies the named middlewares, the handler chain
runs outer-to-inner as: each present named middleware in **reverse**
caller-supplied order (the last name of the order list outermost), then
the bundled access logger, then the bundled size limiter, then (for the
HTTP server with h2c enabled) the cleartext HTTP/2 upgrade layer, then
the terminal handler. -/
theorem serve_chain_order (registry order : List String) (maxRequestSize : Nat)
    (h2cEnabled : Bool) :
    chainOf (serveHTTPChain registry order maxRequestSize h2cEnabled false 0) =
      ((order.filter (fun n => registry.contains n)).reverse.map Layer.namedL)
        ++ [.accessLoggerL, .sizeLimiterL]
        ++ (if h2cEnabled then [Layer.h2cL, Layer.terminalL]
            else [Layer.terminalL]) ∧
    chainOf (serveHTTPSChain registry order maxRequestSize) =
      ((order.filter (fun n => registry.contains n)).reverse.map Layer.namedL)
        ++ [.accessLoggerL, .sizeLimiterL, .terminalL] := by
  constructor
  · show chainOf (applyNamed registry order
        (applyBundledMiddleware maxRequestSize
          (newHTTPServerHandler .terminal h2cEnabled))) = _
    rw [chainOf_applyNamed]
    cases h2cEnabled <;> simp [applyBundledMiddleware, newHTTPServerHandler,
      NewLogMiddleware, MaxRequestSize, chainOf]
  · rw [show serveHTTPSChain registry order maxRequestSize =
        httpsStartHandler registry order
          (applyBundledMiddleware maxRequestSize .terminal) from rfl]
    rw [chainOf_httpsStart]
    simp [applyBundledMiddleware, NewLogMiddleware, MaxRequestSize, chainOf]

/-- **C2.** With HTTPS redirect configured on the plain HTTP server,
`Start` installs the redirect wrapper after all named middlewares (the
wrapper discards the handler it wraps, so it is the entire — hence
innermost — handler chain), and for every request the wrapper's response
is a permanent redirect (308) whose target has scheme `https`, host
repointed to the configured TLS port via `TLSAddr`, the request's path
and query unchanged, with the Strict-Transport-Security header set. -/
theorem http_redirect_wrapper_spec (registry order : List String)
    (maxRequestSize : Nat) (h2cEnabled : Bool) (port : Int)
    (r : RedirectRequest) :
    serveHTTPChain registry order maxRequestSize h2cEnabled true port =
      .redirect port ∧
    (chainOf (serveHTTPChain registry order maxRequestSize h2cEnabled true
        port)).getLast? = some .redirectL ∧
    (redirectHandle port r).status = 308 ∧
    ("Strict-Transport-Security",
        "max-age=31536000; includeSubDomains; preload") ∈
      (redirectHandle port r).headers ∧
    (redirectHandle port r).target.scheme = "https" ∧
    (redirectHandle port r).target.host = TLSAddr r.host false port ∧
    (redirectHandle port r).target.path = r.path ∧
    (redirectHandle port r).target.rawQuery = r.rawQuery ∧
    (¬port = 443 →
      (redirectHandle port r).target.host =
        String.mk ((goSplitChar ':' r.host.data).headD []
          ++ ':' :: (toString port).data)) := by
  have hchain : serveHTTPChain registry order maxRequestSize h2cEnabled true
      port = .redirect port := rfl
  refine ⟨hchain, by rw [hchain]; rfl, rfl, by simp [redirectHandle], rfl,
    rfl, rfl, rfl, ?_⟩
  intro hp
  show TLSAddr r.host false port = _
  unfold TLSAddr tlsAddrL
  rw [if_pos]
  simp [hp]

/-- **C2 witness.** The port-repointing clause instantiated at a concrete
request and port 8443. -/
theorem http_redirect_wrapper_spec_witness :
    (redirectHandle 8443 ⟨"example.com:8080", "/a/b", "q=1"⟩).target.host =
      String.mk ((goSplitChar ':' "example.com:8080".data).headD []
        ++ ':' :: (toString (8443 : Int)).data) :=
  (http_redirect_wrapper_spec [] [] 100 false 8443
      ⟨"example.com:8080", "/a/b", "q=1"⟩).2.2.2.2.2.2.2.2 (by decide)

/-- **C3 counterexample.** The claim says a hostname host selects the IPv4
network; but `CreateListener("localhost:8080")` selects `tcp6`:
`net.ParseIP("localhost")` is nil, and `netw` maps a nil IP (whose `To4`
is nil) to IPv6. -/
theorem createListener_hostname_counterexample :
    CreateListener "localhost:8080"
        ⟨fun _ => .errNotExist, fun _ => none⟩ =
      some (.tcpListen IPV6 "localhost:8080") ∧
    IPV6 ≠ IPV4 := by
  constructor
  · rfl
  · decide

/-- **C3 (amended).** For every TCP address accepted by
`createTCPListener`: an empty host selects the IPv4 network; a non-empty
host that does not parse as an IP at all (a hostname) selects the IPv6
network; a host parsing to an IP with a 4-byte form (an IPv4 literal, or
an IPv4-mapped IPv6 literal) selects IPv4; any other parsed IP (a
bracketed IPv6 literal that is not IPv4-mapped) selects IPv6.  Concrete
instances: `:8080` → tcp4, `[::1]:8080` → tcp6, `127.0.0.1:8080` → tcp4,
`localhost:8080` → tcp6, `[::ffff:1.2.3.4]:8080` → tcp4. -/
theorem createTCPListener_family_selection :
    (∀ (addr : String) (host port : List Char),
      splitHostPort addr.data = some (host, port) →
        (host = [] → createTCPListener addr = .ok ⟨IPV4, addr⟩) ∧
        (host ≠ [] → ParseIP host = [] →
          createTCPListener addr = .ok ⟨IPV6, addr⟩) ∧
        (host ≠ [] → To4 (ParseIP host) ≠ [] →
          createTCPListener addr = .ok ⟨IPV4, addr⟩) ∧
        (host ≠ [] → ParseIP host ≠ [] → To4 (ParseIP host) = [] →
          createTCPListener addr = .ok ⟨IPV6, addr⟩)) ∧
    createTCPListener ":8080" = .ok ⟨IPV4, ":8080"⟩ ∧
    createTCPListener "[::1]:8080" = .ok ⟨IPV6, "[::1]:8080"⟩ ∧
    createTCPListener "127.0.0.1:8080" = .ok ⟨IPV4, "127.0.0.1:8080"⟩ ∧
    createTCPListener "localhost:8080" = .ok ⟨IPV6, "localhost:8080"⟩ ∧
    createTCPListener "[::ffff:1.2.3.4]:8080" =
      .ok ⟨IPV4, "[::ffff:1.2.3.4]:8080"⟩ := by
  refine ⟨?_, rfl, rfl, rfl, rfl, rfl⟩
  intro addr host port hsplit
  have hbase : createTCPListener addr =
      (if host = [] then .ok ⟨IPV4, addr⟩
       else .ok ⟨netw (ParseIP host), addr⟩) := by
    unfold createTCPListener
    rw [hsplit]
  refine ⟨?_, ?_, ?_, ?_⟩
  · intro hnil
    rw [hbase, if_pos hnil]
  · intro hne hip
    rw [hbase, if_neg hne]
    have : netw (ParseIP host) = IPV6 := by
      unfold netw
      rw [hip]
      rfl
    rw [this]
  · intro hne h4
    rw [hbase, if_neg hne]
    have : netw (ParseIP host) = IPV4 := by
      unfold netw
      rw [if_neg h4]
    rw [this]
  · intro hne _ h4
    rw [hbase, if_neg hne]
    have : netw (ParseIP host) = IPV6 := by
      unfold netw
      rw [if_pos h4]
    rw [this]

/-- **C3 witness.** The general clause instantiated at the IPv4 literal
address `127.0.0.1:8080`. -/
theorem createTCPListener_family_selection_witness :
    createTCPListener "127.0.0.1:8080" = .ok ⟨IPV4, "127.0.0.1:8080"⟩ :=
  (createTCPListener_family_selection.1 "127.0.0.1:8080"
      "127.0.0.1".data "8080".data rfl).2.2.1 (by decide) (by decide)

/-- **C10 (code bug).** `CreateListener` on a unix-scheme address panics
(modelled as `none`) when `os.Stat` on the socket path fails with an
error other than non-existence (for example a permission error):
`fileExists` calls `info.IsDir()` on the nil `FileInfo` interface.  The
claim — that a listener or error value is always returned — is the
evident intent of `fileExists` ("to prevent further errors"), so the code
is wrong. -/
theorem createListener_unix_stat_panic :
    CreateListener "unix:///var/run/app.sock"
        ⟨fun _ => .errOther, fun _ => none⟩ = none ∧
    CreateListener "unix:///var/run/app.sock"
        ⟨fun _ => .errNotExist, fun _ => none⟩ =
      some (.unixListen "unix" "/var/run/app.sock") := by
  exact ⟨rfl, rfl⟩

end RumorsHub
